import Mathlib

/-!
# Chemical equipment dashboard: view state and API client

A shallow embedding of the browser client under `frontend-web/src`
(`api.js`, `Login.js`, `Dashboard.js`, `App.js`) and the properties of its
view-state transitions.

Modelling conventions.

* Every `useState` cell is a field of a state record; a setter call
  `setX(v)` is the record update `x := v` (the setters are used with plain
  values only, never with updater functions).
* An `async` handler is split at its single `await`: the part before it
  (`handleUpload`, `handleGetHistory`, `Login.handleSubmit`) yields the state
  at suspension together with the HTTP request that was issued, and the
  `.resume` part takes the outcome of the awaited promise (`Except JSError _`:
  resolved value or rejection reason).  `.run` composes the two.
* `alert(...)` and outbound HTTP requests are recorded in an effect trace.
* `localStorage` is an association list of string pairs; quota and access
  errors of the browser storage are outside the model.
* Values received from the server are JSON values (`JSValue`).  Strings are
  Lean strings, so operations that enumerate the UTF-16 code units of a
  string primitive agree with JavaScript on strings of the Basic
  Multilingual Plane.
-/

namespace ChemEquip

/-! ## JavaScript values -/

/-- A JavaScript number: the two infinities, NaN, or a finite value (every
finite double is a rational; `-0` is identified with `0`). -/
inductive JSNumber where
  | nan
  | posInf
  | negInf
  | fin (q : ℚ)
  deriving DecidableEq

/-- The values a JSON response body can hold, plus `undefined`.  The property
list of an object is in property-enumeration order (the order `Object.keys`
reports); an object of the language has pairwise distinct keys. -/
inductive JSValue where
  | undefined
  | null
  | bool (b : Bool)
  | num (n : JSNumber)
  | str (s : String)
  | arr (xs : List JSValue)
  | obj (props : List (String × JSValue))

/-- An `Error` object as seen by a `catch` clause (axios rejections and the
exceptions of the runtime are `Error` objects): the program reads nothing
but `message`. -/
structure JSError where
  name : String
  message : String
  deriving DecidableEq

/-- The `TypeError` raised by a property read on `undefined`/`null` or by a
call of something that is not a function. -/
def typeError (message : String) : JSError :=
  { name := "TypeError", message := message }

/-- ToBoolean on numbers: `0` and `NaN` are falsy. -/
def JSNumber.truthy : JSNumber → Bool
  | .nan => false
  | .posInf => true
  | .negInf => true
  | .fin q => decide (q ≠ 0)

/-- ToBoolean: the truthiness that `!x`, `x ? a : b` and `x && y` test. -/
def JSValue.truthy : JSValue → Bool
  | .undefined => false
  | .null => false
  | .bool b => b
  | .num n => n.truthy
  | .str s => decide (s ≠ "")
  | .arr _ => true
  | .obj _ => true

/-- First value bound to `name` in a property list. -/
def lookupProp (name : String) : List (String × JSValue) → Option JSValue
  | [] => none
  | (k, v) :: rest => if k = name then some v else lookupProp name rest

/-- Canonical array-index lookup: `name` is the decimal numeral of a position
of `xs`. -/
def lookupIndex (name : String) (xs : List JSValue) : Option JSValue :=
  ((List.range xs.length).find? (fun i => decide (toString i = name))).bind
    (fun i => xs.get? i)

/-- Property read `v.name` / `v[name]` for a data property name (a name
that is not a member of a built-in prototype, as are all names the program
reads).  Reading a property of `undefined` or `null` throws; a missing
property is `undefined`. -/
def getProp (v : JSValue) (name : String) : Except JSError JSValue :=
  match v with
  | .undefined =>
      .error (typeError ("Cannot read properties of undefined (reading " ++ name ++ ")"))
  | .null =>
      .error (typeError ("Cannot read properties of null (reading " ++ name ++ ")"))
  | .bool _ => .ok .undefined
  | .num _ => .ok .undefined
  | .str s =>
      if name = "length" then .ok (.num (.fin s.length))
      else
        match lookupIndex name (s.toList.map (fun c => JSValue.str (String.singleton c))) with
        | some c => .ok c
        | none => .ok .undefined
  | .arr xs =>
      if name = "length" then .ok (.num (.fin xs.length))
      else
        match lookupIndex name xs with
        | some x => .ok x
        | none => .ok .undefined
  | .obj props =>
      match lookupProp name props with
      | some x => .ok x
      | none => .ok .undefined

/-- The own enumerable string-keyed properties of ToObject(`v`), as
`Object.entries` lists them; `undefined` and `null` have no object form. -/
def objectEntries (v : JSValue) : Except JSError (List (String × JSValue)) :=
  match v with
  | .undefined => .error (typeError "Cannot convert undefined or null to object")
  | .null => .error (typeError "Cannot convert undefined or null to object")
  | .bool _ => .ok []
  | .num _ => .ok []
  | .str s =>
      .ok ((List.range s.length).zipWith (fun i c => (toString i, JSValue.str (String.singleton c)))
        s.toList)
  | .arr xs => .ok ((List.range xs.length).zipWith (fun i x => (toString i, x)) xs)
  | .obj props => .ok props

/-- The keys of `objectEntries`, as `Object.keys` returns them. -/
def objectKeys (v : JSValue) : Except JSError (List String) :=
  (objectEntries v).map (fun es => es.map Prod.fst)

/-- The values of `objectEntries`, as `Object.values` returns them. -/
def objectValues (v : JSValue) : Except JSError (List JSValue) :=
  (objectEntries v).map (fun es => es.map Prod.snd)

/-- Method call `v.toFixed(2)`: defined on numbers only (the rendered text is
the number rounded to two decimals, represented by the number itself). -/
def toFixed2 (v : JSValue) : Except JSError JSNumber :=
  match v with
  | .num n => .ok n
  | .undefined => .error (typeError "Cannot read properties of undefined (reading toFixed)")
  | .null => .error (typeError "Cannot read properties of null (reading toFixed)")
  | _ => .error (typeError "toFixed is not a function")

/-- The loop of `Array.prototype.map` with a callback that can throw: the
callback runs on the elements from left to right and the first exception
aborts the loop. -/
def mapElems {α β : Type} (f : α → Except JSError β) : List α → Except JSError (List β)
  | [] => .ok []
  | x :: rest =>
      match f x with
      | .error e => .error e
      | .ok y =>
          match mapElems f rest with
          | .error e => .error e
          | .ok ys => .ok (y :: ys)

/-- Method call `v.map(f)`: defined on arrays only. -/
def jsMap {β : Type} (v : JSValue) (f : JSValue → Except JSError β) :
    Except JSError (List β) :=
  match v with
  | .arr xs => mapElems f xs
  | .undefined => .error (typeError "Cannot read properties of undefined (reading map)")
  | .null => .error (typeError "Cannot read properties of null (reading map)")
  | _ => .error (typeError "map is not a function")

/-! ## Browser storage -/

/-- Contents of `localStorage`. -/
abbrev Storage := List (String × String)

/-- The call `localStorage.getItem(key)`; `none` is `null`. -/
def Storage.getItem (st : Storage) (key : String) : Option String :=
  match st with
  | [] => none
  | (k, v) :: rest => if k = key then some v else Storage.getItem rest key

/-- The call `localStorage.removeItem(key)`. -/
def Storage.removeItem (st : Storage) (key : String) : Storage :=
  match st with
  | [] => []
  | (k, v) :: rest =>
      if k = key then Storage.removeItem rest key else (k, v) :: Storage.removeItem rest key

/-- The call `localStorage.setItem(key, value)` with the value already
converted to a string. -/
def Storage.setItem (st : Storage) (key value : String) : Storage :=
  match st with
  | [] => [(key, value)]
  | (k, v) :: rest =>
      if k = key then (k, value) :: rest else (k, v) :: Storage.setItem rest key value

/-! ## Files, requests and effects -/

/-- A `File` picked in the file input. -/
structure File where
  name : String
  content : String
  deriving DecidableEq

/-- Content of the `file` state cell: the initial `null`, the `undefined` of an
empty `e.target.files`, or a picked file. -/
inductive FileSlot where
  | null
  | undefined
  | file (f : File)
  deriving DecidableEq

/-- ToBoolean on the `file` cell: a `File` object is truthy. -/
def FileSlot.truthy : FileSlot → Bool
  | .null => false
  | .undefined => false
  | .file _ => true

/-- Body of an outbound request. -/
inductive RequestBody where
  | none
  | credentials (username password : String)
  | formData (field : String) (value : FileSlot)
  deriving DecidableEq

/-- An outbound axios request. -/
structure HttpRequest where
  method : String
  url : String
  authorization : Option String
  body : RequestBody
  deriving DecidableEq

/-- A resolved axios response. -/
structure AxiosResponse (α : Type) where
  status : Nat
  data : α

/-- Observable effects of a handler, in program order. -/
inductive Effect where
  | alert (message : String)
  | http (req : HttpRequest)
  deriving DecidableEq

/-! ## api.js -/

/-- The constant `API_BASE_URL`. -/
def API_BASE_URL : String := "http://localhost:8000/api"

/-- The function `getAuthHeaders`: the `Authorization` header built from the
stored token (the template literal prints a missing token as `null`). -/
def getAuthHeaders (st : Storage) : String :=
  "Token " ++ (match st.getItem "token" with
    | some t => t
    | none => "null")

/-- Request issued by `login(username, password)`. -/
def login.request (username password : String) : HttpRequest :=
  { method := "POST", url := API_BASE_URL ++ "/login/", authorization := none,
    body := .credentials username password }

/-- Result of `login`: `response.data` of the awaited post, or its rejection. -/
def login (response : Except JSError (AxiosResponse JSValue)) : Except JSError JSValue :=
  response.map (fun r => r.data)

/-- Request issued by `uploadCSV(file)`. -/
def uploadCSV.request (st : Storage) (file : FileSlot) : HttpRequest :=
  { method := "POST", url := API_BASE_URL ++ "/upload/",
    authorization := some (getAuthHeaders st), body := .formData "file" file }

/-- Result of `uploadCSV`: `response.data` of the awaited post, or its
rejection. -/
def uploadCSV (response : Except JSError (AxiosResponse JSValue)) : Except JSError JSValue :=
  response.map (fun r => r.data)

/-- Request issued by `getHistory()`. -/
def getHistory.request (st : Storage) : HttpRequest :=
  { method := "GET", url := API_BASE_URL ++ "/history/",
    authorization := some (getAuthHeaders st), body := .none }

/-- Result of `getHistory`: `response.data` of the awaited get (the history
endpoint answers with a JSON array), or its rejection. -/
def getHistory (response : Except JSError (AxiosResponse (List JSValue))) :
    Except JSError (List JSValue) :=
  response.map (fun r => r.data)

/-! ## Dashboard.js: state and handlers -/

/-- The four `useState` cells of `Dashboard`. -/
structure DashState where
  file : FileSlot
  data : JSValue
  history : List JSValue
  loading : Bool

/-- Initial values of the `useState` cells. -/
def Dashboard.init : DashState :=
  { file := .null, data := .null, history := [], loading := false }

/-- An `async` handler up to its first `await`: it either returned, or is
suspended on a request. -/
inductive Started (σ : Type) where
  | returned (s : σ) (effects : List Effect)
  | suspended (s : σ) (effects : List Effect)

/-- The handler `handleFileChange`: `setFile(e.target.files[0])`. -/
def handleFileChange (s : DashState) (files : List File) : DashState :=
  { s with file := match files.head? with
      | some f => .file f
      | none => .undefined }

/-- The handler `handleUpload` up to `await uploadCSV(file)`. -/
def handleUpload (st : Storage) (s : DashState) : Started DashState :=
  if !s.file.truthy then
    .returned s [.alert "Please select a CSV file"]
  else
    .suspended { s with loading := true } [.http (uploadCSV.request st s.file)]

/-- The handler `handleUpload` from the settlement of `uploadCSV(file)` on. -/
def handleUpload.resume (s : DashState) (outcome : Except JSError JSValue) :
    DashState × List Effect :=
  match outcome with
  | .ok result =>
      ({ s with data := result, loading := false }, [.alert "CSV uploaded successfully!"])
  | .error err =>
      ({ s with loading := false }, [.alert ("Error uploading file: " ++ err.message)])

/-- The handler `handleUpload` run to completion against the response of the
upload endpoint. -/
def handleUpload.run (st : Storage) (s : DashState)
    (response : Except JSError (AxiosResponse JSValue)) : DashState × List Effect :=
  match handleUpload st s with
  | .returned s1 effects => (s1, effects)
  | .suspended s1 effects =>
      let r := handleUpload.resume s1 (uploadCSV response)
      (r.1, effects ++ r.2)

/-- The handler `handleGetHistory` up to `await getHistory()`. -/
def handleGetHistory (st : Storage) (s : DashState) : Started DashState :=
  .suspended { s with loading := true } [.http (getHistory.request st)]

/-- The handler `handleGetHistory` from the settlement of `getHistory()` on. -/
def handleGetHistory.resume (s : DashState) (outcome : Except JSError (List JSValue)) :
    DashState × List Effect :=
  match outcome with
  | .ok result => ({ s with history := result, loading := false }, [])
  | .error err =>
      ({ s with loading := false }, [.alert ("Error fetching history: " ++ err.message)])

/-- The handler `handleGetHistory` run to completion against the response of
the history endpoint. -/
def handleGetHistory.run (st : Storage) (s : DashState)
    (response : Except JSError (AxiosResponse (List JSValue))) : DashState × List Effect :=
  match handleGetHistory st s with
  | .returned s1 effects => (s1, effects)
  | .suspended s1 effects =>
      let r := handleGetHistory.resume s1 (getHistory response)
      (r.1, effects ++ r.2)

/-- Whether a trace contains a request to `url`. -/
def callsUrl (url : String) (effects : List Effect) : Bool :=
  effects.any (fun e => match e with
    | .http req => decide (req.url = url)
    | .alert _ => false)

/-- The alert messages of a trace, in order. -/
def alerts (effects : List Effect) : List String :=
  effects.filterMap (fun e => match e with
    | .alert m => some m
    | .http _ => none)

/-! ## Dashboard.js: rendering -/

/-- One dataset of the bar chart. -/
structure ChartDataset where
  label : String
  data : List JSValue
  backgroundColor : String

/-- The object handed to `Bar` as `data`. -/
structure ChartData where
  labels : List String
  datasets : List ChartDataset

/-- The constant `chartData` computed on every render of `Dashboard`:
`data ? { labels: Object.keys(...), datasets: [...] } : null`. -/
def chartData (data : JSValue) : Except JSError (Option ChartData) :=
  if data.truthy then do
    let td ← getProp data "type_distribution"
    let labels ← objectKeys td
    let td2 ← getProp data "type_distribution"
    let values ← objectValues td2
    pure (some
      { labels := labels,
        datasets := [{ label := "Equipment Count by Type", data := values,
                       backgroundColor := "rgba(75, 192, 192, 0.6)" }] })
  else
    pure none

/-- A child `guard && element`: the element when the guard is truthy,
otherwise the guard value itself, which is no element. -/
inductive Guarded (α : Type) where
  | skipped (guard : JSValue)
  | shown (x : α)

/-- Whether the guarded element is in the output. -/
def Guarded.isShown {α : Type} : Guarded α → Bool
  | .skipped _ => false
  | .shown _ => true

/-- The `stats` block: total count and the three averages, each average
printed with `toFixed(2)`. -/
structure StatsView where
  totalCount : JSValue
  flowrate : JSNumber
  pressure : JSNumber
  temperature : JSNumber

/-- One `tr` of the equipment table. -/
structure RowView where
  name : JSValue
  type : JSValue
  flowrate : JSValue
  pressure : JSValue
  temperature : JSValue

/-- The `results` block: statistics, type-distribution list, chart, table; the
report button is part of the block whenever the block is there. -/
structure ResultsView where
  stats : StatsView
  typeDistribution : Guarded (List (String × JSValue))
  chart : Option ChartData
  table : List RowView

/-- One `li` of the history list. -/
structure HistoryItemView where
  key : JSValue
  filename : JSValue
  uploadDate : JSValue

/-- What `Dashboard` returns. -/
structure DashboardView where
  username : Option String
  uploadDisabled : Bool
  uploadLabel : String
  results : Guarded ResultsView
  historyDisabled : Bool
  historyList : Option (List HistoryItemView)

/-- The callback of `data.data.map` building a table row. -/
def renderRow (item : JSValue) : Except JSError RowView := do
  let name ← getProp item "Equipment Name"
  let type ← getProp item "Type"
  let flowrate ← getProp item "Flowrate"
  let pressure ← getProp item "Pressure"
  let temperature ← getProp item "Temperature"
  pure { name := name, type := type, flowrate := flowrate, pressure := pressure,
         temperature := temperature }

/-- The callback of `history.map` building a list item. -/
def renderHistoryItem (item : JSValue) : Except JSError HistoryItemView := do
  let key ← getProp item "id"
  let filename ← getProp item "filename"
  let uploadDate ← getProp item "upload_date"
  pure { key := key, filename := filename, uploadDate := uploadDate }

/-- The element built by `data && (<div className="results">...)`, given the
value of `chartData`. -/
def renderResults (data : JSValue) (chart : Option ChartData) :
    Except JSError (Guarded ResultsView) :=
  if data.truthy then do
    let totalCount ← getProp data "total_count"
    let flowrate ← toFixed2 (← getProp (← getProp data "averages") "flowrate")
    let pressure ← toFixed2 (← getProp (← getProp data "averages") "pressure")
    let temperature ← toFixed2 (← getProp (← getProp data "averages") "temperature")
    let td ← getProp data "type_distribution"
    let typeDistribution ←
      if td.truthy then do
        let entries ← objectEntries (← getProp data "type_distribution")
        pure (Guarded.shown entries)
      else
        pure (Guarded.skipped td)
    let table ← jsMap (← getProp data "data") renderRow
    pure (Guarded.shown
      { stats := { totalCount := totalCount, flowrate := flowrate, pressure := pressure,
                   temperature := temperature },
        typeDistribution := typeDistribution,
        chart := chart,
        table := table })
  else
    pure (Guarded.skipped data)

/-- The function component `Dashboard`: the computation of `chartData`
followed by the returned element, or the exception that aborts the render. -/
def Dashboard.render (st : Storage) (s : DashState) : Except JSError DashboardView := do
  let chart ← chartData s.data
  let results ← renderResults s.data chart
  let historyList ←
    if 0 < s.history.length then do
      let items ← mapElems renderHistoryItem s.history
      pure (some items)
    else
      pure none
  pure { username := st.getItem "username",
         uploadDisabled := s.loading,
         uploadLabel := if s.loading then "Uploading..." else "Upload",
         results := results,
         historyDisabled := s.loading,
         historyList := historyList }

/-- The states `Dashboard` passes through: one step per file pick, per start
of an upload or history fetch, and per settlement of the awaited request. -/
inductive Reachable : DashState → Prop where
  | init : Reachable Dashboard.init
  | fileChange (s : DashState) (files : List File) :
      Reachable s → Reachable (handleFileChange s files)
  | uploadStart (st : Storage) (s s1 : DashState) (effects : List Effect) :
      Reachable s → handleUpload st s = .suspended s1 effects → Reachable s1
  | uploadSettle (s : DashState) (outcome : Except JSError JSValue) :
      Reachable s → Reachable (handleUpload.resume s outcome).1
  | historyStart (st : Storage) (s s1 : DashState) (effects : List Effect) :
      Reachable s → handleGetHistory st s = .suspended s1 effects → Reachable s1
  | historySettle (s : DashState) (outcome : Except JSError (List JSValue)) :
      Reachable s → Reachable (handleGetHistory.resume s outcome).1

/-! ## Login.js -/

mutual
/-- ToString of a value, as `localStorage.setItem` applies it to its second
argument.  The decimal printing of numbers is the Number-to-string conversion
of the language, taken as the parameter `numberToString`; an array prints as
the join of its elements. -/
def toStr (numberToString : JSNumber → String) : JSValue → String
  | .undefined => "undefined"
  | .null => "null"
  | .bool b => if b then "true" else "false"
  | .num n => numberToString n
  | .str s => s
  | .arr xs => joinElems numberToString xs
  | .obj _ => "[object Object]"
/-- The method `Array.prototype.join` with the default separator `,`. -/
def joinElems (numberToString : JSNumber → String) : List JSValue → String
  | [] => ""
  | [x] => elemStr numberToString x
  | x :: y :: rest =>
      elemStr numberToString x ++ "," ++ joinElems numberToString (y :: rest)
/-- One element inside a join: `undefined` and `null` print as the empty
string, every other value by ToString. -/
def elemStr (numberToString : JSNumber → String) : JSValue → String
  | .undefined => ""
  | .null => ""
  | .bool b => if b then "true" else "false"
  | .num n => numberToString n
  | .str s => s
  | .arr xs => joinElems numberToString xs
  | .obj _ => "[object Object]"
end

/-- The three `useState` cells of `Login`. -/
structure LoginState where
  username : String
  password : String
  error : String
  deriving DecidableEq

/-- Initial values of the `useState` cells. -/
def Login.init : LoginState :=
  { username := "", password := "", error := "" }

/-- What `Login` returns: the two controlled inputs and the error paragraph of
`error && <p className="error">`. -/
structure LoginView where
  username : String
  password : String
  error : Option String
  deriving DecidableEq

/-- The function component `Login`. -/
def Login.render (s : LoginState) : LoginView :=
  { username := s.username, password := s.password,
    error := if s.error ≠ "" then some s.error else none }

/-- The handler `handleSubmit` up to `await login(username, password)`. -/
def Login.handleSubmit (s : LoginState) : Started LoginState :=
  .suspended s [.http (login.request s.username s.password)]

/-- Outcome of `handleSubmit` after the settlement of `login`: the component
state, the storage, and whether `onLoginSuccess()` was called. -/
structure SubmitResult where
  state : LoginState
  storage : Storage
  loginSuccess : Bool

/-- The handler `handleSubmit` from the settlement of `login` on: the `try`
body stores the two fields and calls `onLoginSuccess`; any exception, the
rejection of `login` or one raised in the `try` body, lands in the one
`catch` clause. -/
def Login.handleSubmit.resume (numberToString : JSNumber → String) (st : Storage)
    (s : LoginState) (outcome : Except JSError JSValue) : SubmitResult :=
  match outcome with
  | .error _ =>
      { state := { s with error := "Invalid credentials. Please try again." },
        storage := st, loginSuccess := false }
  | .ok data =>
      match getProp data "token" with
      | .error _ =>
          { state := { s with error := "Invalid credentials. Please try again." },
            storage := st, loginSuccess := false }
      | .ok token =>
          let st1 := st.setItem "token" (toStr numberToString token)
          match getProp data "username" with
          | .error _ =>
              { state := { s with error := "Invalid credentials. Please try again." },
                storage := st1, loginSuccess := false }
          | .ok username =>
              { state := s,
                storage := st1.setItem "username" (toStr numberToString username),
                loginSuccess := true }

/-! ## App.js -/

/-- The child component instance that is mounted under `App`, with its state. -/
inductive Mounted where
  | login (s : LoginState)
  | dashboard (s : DashState)

/-- The `useState` cell of `App`, the browser storage, and the mounted child. -/
structure AppState where
  isLoggedIn : Bool
  storage : Storage
  mounted : Mounted

/-- The child after a render of `isLoggedIn ? <Dashboard/> : <Login/>`: React
keeps the state of a component that stays at its position, and replaces a
component of another type by a fresh instance whose `useState` cells hold
their initial values. -/
def reconcile (isLoggedIn : Bool) (previous : Mounted) : Mounted :=
  match isLoggedIn, previous with
  | true, .dashboard s => .dashboard s
  | true, .login _ => .dashboard Dashboard.init
  | false, .login s => .login s
  | false, .dashboard _ => .login Login.init

/-- First render of `App`: `isLoggedIn` starts as
`localStorage.getItem('token') !== null`. -/
def App.init (st : Storage) : AppState :=
  { isLoggedIn := (st.getItem "token").isSome,
    storage := st,
    mounted := if (st.getItem "token").isSome then .dashboard Dashboard.init
               else .login Login.init }

/-- The handler `handleLoginSuccess` and the render it triggers. -/
def handleLoginSuccess (a : AppState) : AppState :=
  { a with isLoggedIn := true, mounted := reconcile true a.mounted }

/-- The handler `handleLogout` and the render it triggers. -/
def handleLogout (a : AppState) : AppState :=
  { isLoggedIn := false,
    storage := (a.storage.removeItem "token").removeItem "username",
    mounted := reconcile false a.mounted }

/-- What `App` shows. -/
inductive AppView where
  | login (v : LoginView)
  | dashboard (v : DashboardView)

/-- The function component `App`. -/
def App.render (a : AppState) : Except JSError AppView :=
  match reconcile a.isLoggedIn a.mounted with
  | .login s => pure (.login (Login.render s))
  | .dashboard s => do
      let v ← Dashboard.render a.storage s
      pure (.dashboard v)

/-- A submit of the mounted Login form, run to the settlement of the login
request: `handleSubmit` with `onLoginSuccess` bound to `handleLoginSuccess`.
Without a mounted Login there is no form to submit. -/
def App.submitLogin (numberToString : JSNumber → String) (a : AppState)
    (response : Except JSError (AxiosResponse JSValue)) : AppState × Bool :=
  match a.mounted with
  | .login s =>
      let r := Login.handleSubmit.resume numberToString a.storage s (login response)
      let a1 : AppState := { a with storage := r.storage, mounted := .login r.state }
      if r.loginSuccess then (handleLoginSuccess a1, true) else (a1, false)
  | .dashboard _ => (a, false)

/-- The history held by the mounted Dashboard, if one is mounted. -/
def mountedHistory (a : AppState) : Option (List JSValue) :=
  match a.mounted with
  | .dashboard s => some s.history
  | .login _ => none

/-- A history fetch of the mounted Dashboard, run to completion. -/
def App.fetchHistory (a : AppState)
    (response : Except JSError (AxiosResponse (List JSValue))) : AppState :=
  match a.mounted with
  | .dashboard s =>
      { a with mounted := .dashboard (handleGetHistory.run a.storage s response).1 }
  | .login _ => a

/-! ## A sample session -/

/-- An upload response of the documented shape: two pumps and a valve. -/
def sampleResult : JSValue :=
  .obj [("id", .num (.fin 7)), ("total_count", .num (.fin 3)),
    ("averages", .obj [("flowrate", .num (.fin 10)), ("pressure", .num (.fin 5)),
      ("temperature", .num (.fin 20))]),
    ("type_distribution", .obj [("Pump", .num (.fin 2)), ("Valve", .num (.fin 1))]),
    ("data", .arr [
      .obj [("Equipment Name", .str "P-101"), ("Type", .str "Pump"),
        ("Flowrate", .num (.fin 12)), ("Pressure", .num (.fin 5)),
        ("Temperature", .num (.fin 20))],
      .obj [("Equipment Name", .str "P-102"), ("Type", .str "Pump"),
        ("Flowrate", .num (.fin 8)), ("Pressure", .num (.fin 6)),
        ("Temperature", .num (.fin 25))],
      .obj [("Equipment Name", .str "V-201"), ("Type", .str "Valve"),
        ("Flowrate", .num (.fin 10)), ("Pressure", .num (.fin 4)),
        ("Temperature", .num (.fin 15))]])]

/-- An upload response of the same shape without the `type_distribution`
field. -/
def resultWithoutDistribution : JSValue :=
  .obj [("id", .num (.fin 7)), ("total_count", .num (.fin 0)),
    ("averages", .obj [("flowrate", .num (.fin 0)), ("pressure", .num (.fin 0)),
      ("temperature", .num (.fin 0))]),
    ("data", .arr [])]

/-- A history entry. -/
def sampleEntry : JSValue :=
  .obj [("id", .num (.fin 7)), ("filename", .str "equip.csv"),
    ("upload_date", .str "2024-01-01T00:00:00Z")]

/-- A picked file. -/
def sampleFile : File :=
  { name := "equip.csv", content := "Equipment Name,Type,Flowrate,Pressure,Temperature" }

/-- Storage of a logged-in session. -/
def sampleStorage : Storage :=
  [("token", "abc123"), ("username", "alice")]

/-- The root view on empty storage with alice's credentials typed into the
Login form. -/
def sampleLogin : AppState :=
  { isLoggedIn := false, storage := [],
    mounted := .login { username := "alice", password := "pw1", error := "" } }

/-- A login response of the documented shape. -/
def sampleSession : JSValue :=
  .obj [("token", .str "abc123"), ("username", .str "alice")]

/-- The root view after the login of `sampleLogin` resolved with
`sampleSession`, followed by a history fetch that resolves with the one-entry
list `[sampleEntry]`. -/
def sampleApp : AppState :=
  App.fetchHistory
    (App.submitLogin (fun _ => "0") sampleLogin (.ok { status := 200, data := sampleSession })).1
    (.ok { status := 200, data := [sampleEntry] })

/-- The Dashboard after picking `sampleFile`, uploading it with response
`sampleResult`, and fetching a one-entry history. -/
def sampleState : DashState :=
  (handleGetHistory.run sampleStorage
    (handleUpload.run sampleStorage (handleFileChange Dashboard.init [sampleFile])
      (.ok { status := 201, data := sampleResult })).1
    (.ok { status := 200, data := [sampleEntry] })).1

/-! ## Storage lemmas -/

theorem getItem_setItem_same (st : Storage) (key value : String) :
    Storage.getItem (Storage.setItem st key value) key = some value := by
  induction st with
  | nil => simp [Storage.setItem, Storage.getItem]
  | cons kv rest ih =>
    obtain ⟨k, v⟩ := kv
    by_cases hk : k = key
    · simp [Storage.setItem, Storage.getItem, hk]
    · simp [Storage.setItem, Storage.getItem, hk, ih]

theorem getItem_setItem_other (st : Storage) (key value other : String) (h : key ≠ other) :
    Storage.getItem (Storage.setItem st key value) other = Storage.getItem st other := by
  induction st with
  | nil => simp [Storage.setItem, Storage.getItem, h]
  | cons kv rest ih =>
    obtain ⟨k, v⟩ := kv
    by_cases hk : k = key
    · subst hk
      simp [Storage.setItem, Storage.getItem, h]
    · by_cases ho : k = other
      · subst ho
        simp [Storage.setItem, Storage.getItem, hk]
      · simp [Storage.setItem, Storage.getItem, hk, ho, ih]

theorem getItem_removeItem_same (st : Storage) (key : String) :
    Storage.getItem (Storage.removeItem st key) key = none := by
  induction st with
  | nil => simp [Storage.removeItem, Storage.getItem]
  | cons kv rest ih =>
    obtain ⟨k, v⟩ := kv
    by_cases hk : k = key
    · simp [Storage.removeItem, hk, ih]
    · simp [Storage.removeItem, Storage.getItem, hk, ih]

theorem getItem_removeItem_other (st : Storage) (key other : String) (h : key ≠ other) :
    Storage.getItem (Storage.removeItem st key) other = Storage.getItem st other := by
  induction st with
  | nil => simp [Storage.removeItem, Storage.getItem]
  | cons kv rest ih =>
    obtain ⟨k, v⟩ := kv
    by_cases hk : k = key
    · subst hk
      simp [Storage.removeItem, Storage.getItem, h, ih]
    · by_cases ho : k = other
      · subst ho
        simp [Storage.removeItem, Storage.getItem, hk]
      · simp [Storage.removeItem, Storage.getItem, hk, ho, ih]

/-! ## Upload -/

/-- C1: from a Dashboard state whose `file` cell is `null` or `undefined`,
`handleUpload` returns before any request is issued: the handler never
suspends (so `loading` is never set), the run leaves the whole state as it
was, its trace is exactly the alert "Please select a CSV file", and no HTTP
request occurs in it. -/
theorem handleUpload_without_file (st : Storage) (s : DashState)
    (response : Except JSError (AxiosResponse JSValue))
    (h : s.file = .null ∨ s.file = .undefined) :
    handleUpload st s = .returned s [.alert "Please select a CSV file"] ∧
    (handleUpload.run st s response).1 = s ∧
    (handleUpload.run st s response).2 = [.alert "Please select a CSV file"] ∧
    alerts (handleUpload.run st s response).2 = ["Please select a CSV file"] ∧
    (∀ req, Effect.http req ∉ (handleUpload.run st s response).2) ∧
    callsUrl (API_BASE_URL ++ "/upload/") (handleUpload.run st s response).2 = false := by
  have hstart : handleUpload st s = .returned s [.alert "Please select a CSV file"] := by
    rcases h with h | h <;> simp [handleUpload, h, FileSlot.truthy]
  have hrun : handleUpload.run st s response = (s, [.alert "Please select a CSV file"]) := by
    simp [handleUpload.run, hstart]
  refine ⟨hstart, ?_, ?_, ?_, ?_, ?_⟩
  · rw [hrun]
  · rw [hrun]
  · rw [hrun]; rfl
  · intro req hmem
    rw [hrun] at hmem
    simp at hmem
  · rw [hrun]; rfl

theorem handleUpload_without_file_witness :
    (handleUpload.run [] Dashboard.init (.error (typeError "unused"))).1 = Dashboard.init ∧
    alerts (handleUpload.run [] Dashboard.init (.error (typeError "unused"))).2
      = ["Please select a CSV file"] :=
  have h := handleUpload_without_file [] Dashboard.init (.error (typeError "unused"))
    (Or.inl rfl)
  ⟨h.2.1, h.2.2.2.1⟩

/-- C2: with a file selected, a run of `handleUpload` whose request resolves
with response body `r.data` ends with `data` equal to `r.data`, whatever
`data` held before, and a run whose request is rejected ends with `data`
equal to its value before the run. -/
theorem handleUpload_data (st : Storage) (s : DashState) (f : File)
    (h : s.file = .file f) :
    (∀ r : AxiosResponse JSValue, (handleUpload.run st s (.ok r)).1.data = r.data) ∧
    (∀ e : JSError, (handleUpload.run st s (.error e)).1.data = s.data) := by
  constructor
  · intro r
    simp [handleUpload.run, handleUpload, h, FileSlot.truthy, handleUpload.resume, uploadCSV,
      Except.map]
  · intro e
    simp [handleUpload.run, handleUpload, h, FileSlot.truthy, handleUpload.resume, uploadCSV,
      Except.map]

theorem handleUpload_data_witness :
    (handleUpload.run []
        { file := .file { name := "equip.csv", content := "" }, data := .str "old",
          history := [], loading := false }
        (.ok { status := 200, data := .obj [("id", .num (.fin 7))] })).1.data
      = .obj [("id", .num (.fin 7))] ∧
    (handleUpload.run []
        { file := .file { name := "equip.csv", content := "" }, data := .str "old",
          history := [], loading := false }
        (.error (typeError "Network Error"))).1.data = .str "old" :=
  have h := handleUpload_data []
    { file := .file { name := "equip.csv", content := "" }, data := .str "old",
      history := [], loading := false }
    { name := "equip.csv", content := "" } rfl
  ⟨h.1 { status := 200, data := .obj [("id", .num (.fin 7))] },
   h.2 (typeError "Network Error")⟩

/-! ## History fetch -/

/-- C5: a run of `handleGetHistory` whose request resolves with the sequence
`r.data` ends with `history` equal to `r.data` (same entries, same order),
whatever `history` held before; an entry of the previous list is in the new
one only if it is in `r.data`. -/
theorem handleGetHistory_replaces (st : Storage) (s : DashState)
    (r : AxiosResponse (List JSValue)) :
    (handleGetHistory.run st s (.ok r)).1.history = r.data ∧
    (∀ x, x ∈ s.history → x ∈ (handleGetHistory.run st s (.ok r)).1.history → x ∈ r.data) := by
  have hh : (handleGetHistory.run st s (.ok r)).1.history = r.data := by
    simp [handleGetHistory.run, handleGetHistory, handleGetHistory.resume, getHistory,
      Except.map]
  refine ⟨hh, ?_⟩
  intro x _ hx
  rw [hh] at hx
  exact hx

/-! ## The loading flag -/

/-- C6: an upload started with a file selected, and a history fetch started
from any state (with or without a file), suspend with `loading = true`; when
the awaited request settles, by resolving or by rejecting, the handler ends
with `loading = false`, from the suspended state and also from any state the
Dashboard is in at that moment, and so does the run as a whole. -/
theorem loading_flag (st : Storage) (s : DashState) :
    (∀ f : File, s.file = .file f →
      (∃ s1 effects, handleUpload st s = .suspended s1 effects ∧ s1.loading = true ∧
        ∀ outcome, (handleUpload.resume s1 outcome).1.loading = false) ∧
      (∀ response, (handleUpload.run st s response).1.loading = false)) ∧
    (∀ s2 outcome, (handleUpload.resume s2 outcome).1.loading = false) ∧
    (∃ s1 effects, handleGetHistory st s = .suspended s1 effects ∧ s1.loading = true ∧
      ∀ outcome, (handleGetHistory.resume s1 outcome).1.loading = false) ∧
    (∀ s2 outcome, (handleGetHistory.resume s2 outcome).1.loading = false) ∧
    (∀ response, (handleGetHistory.run st s response).1.loading = false) := by
  have hu : ∀ s2 outcome, (handleUpload.resume s2 outcome).1.loading = false := by
    intro s2 outcome
    cases outcome <;> rfl
  have hg : ∀ s2 outcome, (handleGetHistory.resume s2 outcome).1.loading = false := by
    intro s2 outcome
    cases outcome <;> rfl
  refine ⟨?_, hu, ⟨{ s with loading := true }, [.http (getHistory.request st)],
      rfl, rfl, fun o => hg _ o⟩, hg, ?_⟩
  · intro f h
    refine ⟨⟨{ s with loading := true }, [.http (uploadCSV.request st s.file)], ?_, rfl,
      fun o => hu _ o⟩, ?_⟩
    · simp [handleUpload, h, FileSlot.truthy]
    · intro response
      simp only [handleUpload.run, handleUpload, h, FileSlot.truthy]
      exact hu _ _
  · intro response
    simp only [handleGetHistory.run, handleGetHistory]
    exact hg _ _

theorem loading_flag_witness :
    ((∃ s1 effects,
        handleUpload sampleStorage (handleFileChange Dashboard.init [sampleFile])
          = .suspended s1 effects ∧ s1.loading = true ∧
        ∀ outcome, (handleUpload.resume s1 outcome).1.loading = false) ∧
      (∀ response,
        (handleUpload.run sampleStorage (handleFileChange Dashboard.init [sampleFile])
          response).1.loading = false)) ∧
    (∃ s1 effects, handleGetHistory sampleStorage Dashboard.init = .suspended s1 effects ∧
      s1.loading = true ∧
      ∀ outcome, (handleGetHistory.resume s1 outcome).1.loading = false) ∧
    (∀ response, (handleGetHistory.run sampleStorage Dashboard.init response).1.loading = false) :=
  have hfile := loading_flag sampleStorage (handleFileChange Dashboard.init [sampleFile])
  have hinit := loading_flag sampleStorage Dashboard.init
  ⟨hfile.1 sampleFile rfl, hinit.2.2.1, hinit.2.2.2.2⟩

/-! ## Login and logout -/

theorem render_init (st : Storage) :
    Dashboard.render st Dashboard.init
      = .ok { username := st.getItem "username", uploadDisabled := false,
              uploadLabel := "Upload", results := .skipped .null,
              historyDisabled := false, historyList := none } := by
  rfl

/-- C3: a submit of the Login form, for any username and password typed into
it.  When the login request resolves with a body whose `token` and `username`
fields are the strings `t` and `n`, storage afterwards holds `t` under
"token" and `n` under "username", `onLoginSuccess` was called,
`isLoggedIn` is true and the root view shows the Dashboard.  When the
request is rejected, with whatever error, `onLoginSuccess` is not called,
`isLoggedIn` stays false, storage is untouched, and the root view shows the
Login form with the error text "Invalid credentials. Please try again.". -/
theorem login_submit (numberToString : JSNumber → String) (a : AppState) (s : LoginState)
    (hm : a.mounted = .login s) (hl : a.isLoggedIn = false) :
    (∀ (r : AxiosResponse JSValue) (t n : String),
      getProp r.data "token" = .ok (.str t) → getProp r.data "username" = .ok (.str n) →
      (App.submitLogin numberToString a (.ok r)).1.storage.getItem "token" = some t ∧
      (App.submitLogin numberToString a (.ok r)).1.storage.getItem "username" = some n ∧
      (App.submitLogin numberToString a (.ok r)).2 = true ∧
      (App.submitLogin numberToString a (.ok r)).1.isLoggedIn = true ∧
      (App.submitLogin numberToString a (.ok r)).1.mounted = .dashboard Dashboard.init ∧
      ∃ v, App.render (App.submitLogin numberToString a (.ok r)).1 = .ok (.dashboard v)) ∧
    (∀ e : JSError,
      (App.submitLogin numberToString a (.error e)).2 = false ∧
      (App.submitLogin numberToString a (.error e)).1.isLoggedIn = false ∧
      (App.submitLogin numberToString a (.error e)).1.storage = a.storage ∧
      (App.submitLogin numberToString a (.error e)).1.mounted
        = .login { s with error := "Invalid credentials. Please try again." } ∧
      App.render (App.submitLogin numberToString a (.error e)).1
        = .ok (.login { username := s.username, password := s.password,
                        error := some "Invalid credentials. Please try again." })) := by
  constructor
  · intro r t n ht hn
    have hs : App.submitLogin numberToString a (.ok r)
        = ({ isLoggedIn := true,
             storage := (a.storage.setItem "token" t).setItem "username" n,
             mounted := .dashboard Dashboard.init }, true) := by
      simp [App.submitLogin, hm, Login.handleSubmit.resume, login, Except.map, ht, hn, toStr,
        handleLoginSuccess, reconcile]
    rw [hs]
    refine ⟨?_, ?_, rfl, rfl, rfl, ?_⟩
    · show Storage.getItem (Storage.setItem (Storage.setItem a.storage "token" t) "username" n)
        "token" = some t
      rw [getItem_setItem_other _ _ _ _ (by decide), getItem_setItem_same]
    · exact getItem_setItem_same _ _ _
    · exact ⟨_, by simp [App.render, reconcile, render_init]; rfl⟩
  · intro e
    have hs : App.submitLogin numberToString a (.error e)
        = ({ a with mounted := .login { s with error := "Invalid credentials. Please try again." } },
           false) := by
      simp [App.submitLogin, hm, Login.handleSubmit.resume, login, Except.map]
    rw [hs]
    refine ⟨rfl, hl, rfl, rfl, ?_⟩
    simp [App.render, hl, reconcile, Login.render]
    rfl

theorem login_submit_witness :
    (App.submitLogin (fun _ => "0") sampleLogin
        (.ok { status := 200, data := sampleSession })).1.storage.getItem "token"
      = some "abc123" ∧
    (App.submitLogin (fun _ => "0") sampleLogin
        (.ok { status := 200, data := sampleSession })).1.storage.getItem "username"
      = some "alice" ∧
    (App.submitLogin (fun _ => "0") sampleLogin
        (.ok { status := 200, data := sampleSession })).1.isLoggedIn = true ∧
    (App.submitLogin (fun _ => "0") sampleLogin
        (.error { name := "AxiosError", message := "Request failed with status code 400" })).2
      = false ∧
    App.render (App.submitLogin (fun _ => "0") sampleLogin
        (.error { name := "AxiosError", message := "Request failed with status code 400" })).1
      = .ok (.login { username := "alice", password := "pw1",
                      error := some "Invalid credentials. Please try again." }) :=
  have h := login_submit (fun _ => "0") sampleLogin
    { username := "alice", password := "pw1", error := "" } rfl rfl
  have hok := h.1 (AxiosResponse.mk 200 sampleSession) "abc123" "alice" rfl rfl
  have herr := h.2 { name := "AxiosError", message := "Request failed with status code 400" }
  ⟨hok.1, hok.2.1, hok.2.2.2.1, herr.1, herr.2.2.2.2⟩

/-- C4: from every root-view state, whatever storage holds and whatever
child is mounted (a Dashboard in any state, `loading = true` included),
`handleLogout` leaves storage with no "token" and no "username" entry,
sets `isLoggedIn` to false, and the root view shows the Login form. -/
theorem handleLogout_clears_session (a : AppState) :
    (handleLogout a).storage.getItem "token" = none ∧
    (handleLogout a).storage.getItem "username" = none ∧
    (handleLogout a).isLoggedIn = false ∧
    (∃ s, (handleLogout a).mounted = .login s) ∧
    (∃ v, App.render (handleLogout a) = .ok (.login v)) := by
  have hmount : ∃ s, reconcile false a.mounted = .login s := by
    cases a.mounted with
    | login s => exact ⟨s, rfl⟩
    | dashboard s => exact ⟨Login.init, rfl⟩
  refine ⟨?_, ?_, rfl, hmount, ?_⟩
  · show Storage.getItem
      (Storage.removeItem (Storage.removeItem a.storage "token") "username") "token" = none
    rw [getItem_removeItem_other _ _ _ (by decide), getItem_removeItem_same]
  · exact getItem_removeItem_same _ _
  · obtain ⟨s, hs⟩ := hmount
    refine ⟨Login.render s, ?_⟩
    have h2 : reconcile false (reconcile false a.mounted) = .login s := by
      rw [hs]; rfl
    simp [App.render, handleLogout, h2]
    rfl

/-! ## History across logout and login -/

/-- C10 as stated fails: in `sampleApp` a successful history fetch has put
the one-entry list `[sampleEntry]` into the history of the mounted Dashboard;
after `handleLogout` followed by `handleLoginSuccess`, with no further
fetch, the mounted Dashboard holds the empty history, not that list, and its
render contains no history list. -/
theorem history_cleared_by_logout_login :
    mountedHistory sampleApp = some [sampleEntry] ∧
    mountedHistory (handleLoginSuccess (handleLogout sampleApp)) = some [] ∧
    mountedHistory (handleLoginSuccess (handleLogout sampleApp)) ≠ some [sampleEntry] ∧
    (∃ v, App.render (handleLoginSuccess (handleLogout sampleApp)) = .ok (.dashboard v) ∧
      v.historyList = none) := by
  refine ⟨rfl, rfl, ?_, ⟨_, rfl, rfl⟩⟩
  intro h
  have h2 : (some [] : Option (List JSValue)) = some [sampleEntry] := h
  simp at h2

/-- C10, amended: from every root-view state, `handleLogout` followed by
`handleLoginSuccess` shows a Dashboard in its initial state: `file` and
`data` are `null`, `history` is empty and `loading` is false, whatever the
Dashboard held before the logout; its render succeeds and contains no
history list and no results section. -/
theorem logout_login_resets_dashboard (a : AppState) :
    (handleLoginSuccess (handleLogout a)).mounted = .dashboard Dashboard.init ∧
    (handleLoginSuccess (handleLogout a)).isLoggedIn = true ∧
    mountedHistory (handleLoginSuccess (handleLogout a)) = some [] ∧
    (∃ v, App.render (handleLoginSuccess (handleLogout a)) = .ok (.dashboard v) ∧
      v.historyList = none ∧ v.results.isShown = false) := by
  have hmount : (handleLoginSuccess (handleLogout a)).mounted = .dashboard Dashboard.init := by
    cases hm : a.mounted <;> simp [handleLoginSuccess, handleLogout, hm, reconcile]
  refine ⟨hmount, rfl, ?_, ?_⟩
  · simp [mountedHistory, hmount, Dashboard.init]
  · refine ⟨{ username := (handleLoginSuccess (handleLogout a)).storage.getItem "username",
              uploadDisabled := false, uploadLabel := "Upload", results := .skipped .null,
              historyDisabled := false, historyList := none }, ?_, rfl, rfl⟩
    have hl : (handleLoginSuccess (handleLogout a)).isLoggedIn = true := rfl
    simp only [App.render, hl, hmount, reconcile, render_init]
    rfl

/-! ## Chart data -/

theorem lookupProp_of_nodup (td : List (String × JSValue))
    (hkeys : (td.map Prod.fst).Nodup) (i : Nat) (k : String) (v : JSValue)
    (h : td[i]? = some (k, v)) : lookupProp k td = some v := by
  induction td generalizing i with
  | nil => simp at h
  | cons kv rest ih =>
    obtain ⟨k0, v0⟩ := kv
    have hnd : k0 ∉ rest.map Prod.fst ∧ (rest.map Prod.fst).Nodup :=
      List.nodup_cons.mp hkeys
    cases i with
    | zero =>
      simp at h
      obtain ⟨h1, h2⟩ := h
      subst h1; subst h2
      simp [lookupProp]
    | succ j =>
      have hj : rest[j]? = some (k, v) := by simpa using h
      have hmem : k ∈ rest.map Prod.fst := by
        exact List.mem_map.mpr ⟨(k, v), List.getElem?_mem hj, rfl⟩
      have hne : k0 ≠ k := by
        intro hc
        subst hc
        exact hnd.1 hmem
      simp [lookupProp, hne, ih hnd.2 j hj]

theorem chartData_of_object (data : JSValue) (td : List (String × JSValue))
    (hd : data.truthy = true) (htd : getProp data "type_distribution" = .ok (.obj td)) :
    chartData data = .ok (some
      { labels := td.map Prod.fst,
        datasets := [{ label := "Equipment Count by Type", data := td.map Prod.snd,
                       backgroundColor := "rgba(75, 192, 192, 0.6)" }] }) := by
  simp [chartData, hd, htd, objectKeys, objectValues, objectEntries, Except.map, bind,
    Except.bind, pure, Except.pure]

/-- C9: for a truthy `data` whose `type_distribution` is an object `td` (a
mapping: its keys are pairwise distinct), `chartData` is an object with
exactly one dataset; `labels` and the dataset's `data` have as many entries
as `td` has types; at every index `i` the value `data[i]` is the count that
`td` holds for `labels[i]`; and every type of `td` occurs exactly once among
the labels. -/
theorem chartData_of_mapping (data : JSValue) (td : List (String × JSValue))
    (hd : data.truthy = true) (htd : getProp data "type_distribution" = .ok (.obj td))
    (hkeys : (td.map Prod.fst).Nodup) :
    ∃ (labels : List String) (ds : ChartDataset),
      chartData data = .ok (some { labels := labels, datasets := [ds] }) ∧
      ds.label = "Equipment Count by Type" ∧
      ds.backgroundColor = "rgba(75, 192, 192, 0.6)" ∧
      labels.length = td.length ∧
      ds.data.length = td.length ∧
      (∀ (i : Nat) (k : String), labels[i]? = some k →
        ∃ count, ds.data[i]? = some count ∧ getProp (.obj td) k = .ok count) ∧
      (∀ k count, (k, count) ∈ td → labels.count k = 1) := by
  refine ⟨td.map Prod.fst,
    ChartDataset.mk "Equipment Count by Type" (td.map Prod.snd) "rgba(75, 192, 192, 0.6)",
    chartData_of_object data td hd htd, rfl, rfl, by simp, by simp, ?_, ?_⟩
  · intro i k hk
    rw [List.getElem?_map] at hk
    cases hi : td[i]? with
    | none => simp [hi] at hk
    | some kv =>
      obtain ⟨k0, v0⟩ := kv
      simp [hi] at hk
      subst hk
      refine ⟨v0, by simp [List.getElem?_map, hi], ?_⟩
      simp [getProp, lookupProp_of_nodup td hkeys i k0 v0 hi]
  · intro k count hmem
    exact List.count_eq_one_of_mem hkeys (List.mem_map.mpr ⟨(k, count), hmem, rfl⟩)

theorem chartData_of_mapping_witness :
    ∃ (labels : List String) (ds : ChartDataset),
      chartData (.obj [("id", .num (.fin 7)), ("total_count", .num (.fin 3)),
          ("type_distribution", .obj [("Pump", .num (.fin 2)), ("Valve", .num (.fin 1))])])
        = .ok (some { labels := labels, datasets := [ds] }) ∧
      ds.label = "Equipment Count by Type" ∧
      ds.backgroundColor = "rgba(75, 192, 192, 0.6)" ∧
      labels.length = [("Pump", JSValue.num (.fin 2)), ("Valve", JSValue.num (.fin 1))].length ∧
      ds.data.length = [("Pump", JSValue.num (.fin 2)), ("Valve", JSValue.num (.fin 1))].length ∧
      (∀ (i : Nat) (k : String), labels[i]? = some k →
        ∃ count, ds.data[i]? = some count ∧
          getProp (.obj [("Pump", .num (.fin 2)), ("Valve", .num (.fin 1))]) k = .ok count) ∧
      (∀ k count, (k, count) ∈ [("Pump", JSValue.num (.fin 2)), ("Valve", JSValue.num (.fin 1))] →
        labels.count k = 1) :=
  chartData_of_mapping
    (.obj [("id", .num (.fin 7)), ("total_count", .num (.fin 3)),
      ("type_distribution", .obj [("Pump", .num (.fin 2)), ("Valve", .num (.fin 1))])])
    [("Pump", .num (.fin 2)), ("Valve", .num (.fin 1))] rfl rfl (by decide)

/-! ## Rendering -/

theorem renderResults_shown (data : JSValue) (chart : Option ChartData)
    (g : Guarded ResultsView) (h : renderResults data chart = .ok g)
    (hshown : g.isShown = true) : data.truthy = true := by
  by_cases hd : data.truthy = true
  · exact hd
  · have h2 : renderResults data chart = .ok (.skipped data) := by
      simp [renderResults, hd, pure, Except.pure]
    rw [h2] at h
    cases h
    simp [Guarded.isShown] at hshown

theorem render_guards (st : Storage) (s : DashState) (v : DashboardView)
    (h : Dashboard.render st s = .ok v) :
    (v.results.isShown = true → s.data.truthy = true) ∧
    (v.historyList.isSome = true → s.history ≠ []) := by
  unfold Dashboard.render at h
  cases hc : chartData s.data with
  | error e => simp [hc, bind, Except.bind] at h
  | ok chart =>
    cases hr : renderResults s.data chart with
    | error e => simp [hc, hr, bind, Except.bind] at h
    | ok g =>
      by_cases hlen : 0 < s.history.length
      · cases hm : mapElems renderHistoryItem s.history with
        | error e => simp [hc, hr, hlen, hm, bind, Except.bind] at h
        | ok items =>
          simp [hc, hr, hlen, hm, bind, Except.bind, pure, Except.pure] at h
          subst h
          refine ⟨fun hs => renderResults_shown _ _ _ hr hs, fun _ => ?_⟩
          exact List.ne_nil_of_length_pos hlen
      · simp [hc, hr, hlen, bind, Except.bind, pure, Except.pure] at h
        subst h
        refine ⟨fun hs => renderResults_shown _ _ _ hr hs, fun hsome => ?_⟩
        simp at hsome

theorem truthy_present (v : JSValue) (h : v.truthy = true) :
    v ≠ .null ∧ v ≠ .undefined := by
  constructor <;> intro hv <;> subst hv <;> simp [JSValue.truthy] at h

/-- C7: in every state the Dashboard reaches from its initial state by file
picks, uploads and history fetches, a render that produces output contains
the results section (statistics, chart, table, report button) only if `data`
is truthy, hence neither `null` nor `undefined`, and contains the history
list only if `history` is non-empty.  A history fetch from such a state that
resolves with the empty array raises no alert, and no render of the
resulting state contains a history list. -/
theorem render_sections_guarded (s : DashState) (hs : Reachable s) :
    (∀ st v, Dashboard.render st s = .ok v →
      (v.results.isShown = true →
        s.data.truthy = true ∧ s.data ≠ .null ∧ s.data ≠ .undefined) ∧
      (v.historyList.isSome = true → s.history ≠ [])) ∧
    (∀ st (r : AxiosResponse (List JSValue)), r.data = [] →
      alerts (handleGetHistory.run st s (.ok r)).2 = [] ∧
      Reachable (handleGetHistory.run st s (.ok r)).1 ∧
      ∀ st2 v, Dashboard.render st2 (handleGetHistory.run st s (.ok r)).1 = .ok v →
        v.historyList = none) := by
  constructor
  · intro st v h
    have hg := render_guards st s v h
    exact ⟨fun hshown => ⟨hg.1 hshown, truthy_present _ (hg.1 hshown)⟩, hg.2⟩
  · intro st r hr
    have hrun : (handleGetHistory.run st s (.ok r)).1
        = (handleGetHistory.resume { s with loading := true } (.ok r.data)).1 ∧
          (handleGetHistory.run st s (.ok r)).2 = [.http (getHistory.request st)] := by
      simp [handleGetHistory.run, handleGetHistory, handleGetHistory.resume, getHistory,
        Except.map]
    refine ⟨?_, ?_, ?_⟩
    · rw [hrun.2]; rfl
    · have h1 : Reachable { s with loading := true } :=
        Reachable.historyStart st s _ _ hs rfl
      have h2 := Reachable.historySettle _ (.ok r.data) h1
      rw [hrun.1]
      exact h2
    · intro st2 v h
      have hg := render_guards st2 _ v h
      have hh : (handleGetHistory.run st s (.ok r)).1.history = [] := by
        rw [hrun.1, ← hr]; rfl
      cases hv : v.historyList with
      | none => rfl
      | some items =>
        exact absurd hh (hg.2 (by simp [hv]))

theorem sampleState_reachable : Reachable sampleState :=
  Reachable.historySettle _ (.ok [sampleEntry])
    (Reachable.historyStart sampleStorage _ _ _
      (Reachable.uploadSettle _ (.ok sampleResult)
        (Reachable.uploadStart sampleStorage _ _ _
          (Reachable.fileChange _ [sampleFile] Reachable.init) rfl)) rfl)

theorem render_sections_guarded_witness :
    Reachable sampleState ∧
    (∃ v, Dashboard.render sampleStorage sampleState = .ok v ∧
      v.results.isShown = true ∧ v.historyList.isSome = true) ∧
    (∀ st v, Dashboard.render st sampleState = .ok v →
      (v.results.isShown = true →
        sampleState.data.truthy = true ∧ sampleState.data ≠ .null ∧
          sampleState.data ≠ .undefined) ∧
      (v.historyList.isSome = true → sampleState.history ≠ [])) ∧
    (∃ v, Dashboard.render sampleStorage
        (handleGetHistory.run sampleStorage sampleState (.ok { status := 200, data := [] })).1
      = .ok v ∧ v.results.isShown = true ∧ v.historyList = none) ∧
    alerts (handleGetHistory.run sampleStorage sampleState (.ok { status := 200, data := [] })).2
      = [] :=
  have h := render_sections_guarded sampleState sampleState_reachable
  ⟨sampleState_reachable, ⟨_, rfl, rfl, rfl⟩, h.1, ⟨_, rfl, rfl, rfl⟩,
   (h.2 sampleStorage (AxiosResponse.mk 200 []) rfl).1⟩

theorem chartData_error_of_absent (data : JSValue) (hd : data.truthy = true)
    (htd : getProp data "type_distribution" = .ok .undefined ∨
      getProp data "type_distribution" = .ok .null) :
    chartData data = .error (typeError "Cannot convert undefined or null to object") := by
  rcases htd with htd | htd <;>
    simp [chartData, hd, htd, objectKeys, objectEntries, Except.map, bind, Except.bind]

/-- C8 fails on the code: after an upload that resolves with a truthy body
whose `type_distribution` is `undefined` or `null`, every render of the
Dashboard throws the TypeError of `Object.keys` in the computation of
`chartData`; no results section is produced. -/
theorem render_throws_without_type_distribution (st : Storage) (s : DashState) (f : File)
    (r : AxiosResponse JSValue) (h : s.file = .file f) (hd : r.data.truthy = true)
    (htd : getProp r.data "type_distribution" = .ok .undefined ∨
      getProp r.data "type_distribution" = .ok .null) :
    (handleUpload.run st s (.ok r)).1.data = r.data ∧
    ∀ st2, Dashboard.render st2 (handleUpload.run st s (.ok r)).1
      = .error (typeError "Cannot convert undefined or null to object") := by
  have hdata : (handleUpload.run st s (.ok r)).1.data = r.data := by
    simp [handleUpload.run, handleUpload, h, FileSlot.truthy, handleUpload.resume, uploadCSV,
      Except.map]
  refine ⟨hdata, fun st2 => ?_⟩
  simp [Dashboard.render, hdata, chartData_error_of_absent r.data hd htd, bind, Except.bind]

theorem render_throws_without_type_distribution_witness :
    (handleUpload.run sampleStorage (handleFileChange Dashboard.init [sampleFile])
        (.ok { status := 201, data := resultWithoutDistribution })).1.data
      = resultWithoutDistribution ∧
    ∀ st2, Dashboard.render st2
        (handleUpload.run sampleStorage (handleFileChange Dashboard.init [sampleFile])
          (.ok { status := 201, data := resultWithoutDistribution })).1
      = .error (typeError "Cannot convert undefined or null to object") :=
  render_throws_without_type_distribution sampleStorage
    (handleFileChange Dashboard.init [sampleFile]) sampleFile
    (AxiosResponse.mk 201 resultWithoutDistribution) rfl rfl (Or.inl rfl)

end ChemEquip
